import Mathlib

/-!
Shallow embedding of the weekly-report pipeline
(`github_api.py`, `data_gathering.py`, `dashboard_docs.py`, `main.py`,
`generate_summary.py`, `MAAS.py`).

Network collaborators (GitHub search, GitHub PR detail, the Granite
completion endpoint) are modelled as explicit response values passed to
the embedded functions; logging has no observable effect and is dropped.
-/

namespace WeeklyReport

/-! ### Paginated fetcher (`fetch_all_prs_by_user`)

The fetch loop in `github_api.py` (and its duplicates in
`data_gathering.py` / `main.py` / `dashboard_docs.py`) issues one HTTP
request per iteration.  We model the sequence of responses the search
collaborator would return as a list, one entry per issued request:
a 403 (rate limit), a 200 carrying a page of items, or any other
non-200 status. -/

/-- One response of the search collaborator to a page request. -/
inductive Resp (α : Type) where
  /-- HTTP 403: rate limited; the code sleeps 60 s and retries. -/
  | rateLimited : Resp α
  /-- HTTP 200 carrying `items` (the parsed `data.get("items", [])`). -/
  | ok (items : List α) : Resp α
  /-- any other status code: the code logs and breaks out of the loop. -/
  | err : Resp α
deriving DecidableEq

/-- Observable outcome of a fetch run: the accumulated `prs` list, the
page number of every request issued (in order), and the duration of
every `time.sleep` performed (in order; the code always sleeps 60). -/
structure FetchResult (α : Type) where
  prs : List α
  trace : List Nat
  sleeps : List Nat
deriving DecidableEq

/-- The `while True` loop of `fetch_all_prs_by_user`, one recursive step
per consumed response.  `none` means the supplied response list ran out
before the loop terminated (the real loop would keep issuing requests). -/
def fetchLoop {α : Type} (perPage page : Nat) (acc : List α)
    (trace sleeps : List Nat) : List (Resp α) → Option (FetchResult α)
  | [] => none
  | Resp.rateLimited :: rest =>
      -- `time.sleep(60); continue` : same page, one more 60 s pause
      fetchLoop perPage page acc (trace ++ [page]) (sleeps ++ [60]) rest
  | Resp.err :: _ =>
      -- `logger.error(...); break` : return what was accumulated
      some ⟨acc, trace ++ [page], sleeps⟩
  | Resp.ok items :: rest =>
      if items.length < perPage then
        -- last-page heuristic: `if len(items) < per_page: break`
        some ⟨acc ++ items, trace ++ [page], sleeps⟩
      else
        fetchLoop perPage (page + 1) (acc ++ items) (trace ++ [page]) sleeps rest

/-- The fetch loop started as the source starts it (`page = 1`,
accumulators empty) with an arbitrary page size. -/
def fetchPages {α : Type} (perPage : Nat) (responses : List (Resp α)) :
    Option (FetchResult α) :=
  fetchLoop perPage 1 [] [] [] responses

/-- Function `fetch_all_prs_by_user`: the source fixes `per_page = 100`. -/
def fetch_all_prs_by_user {α : Type} (responses : List (Resp α)) :
    Option (FetchResult α) :=
  fetchPages 100 responses

/-- Helper for `serverResponses`: the fuel argument only forces
termination; `items.length` fuel is always enough (each step removes
`P ≥ 1` items, and for `P = 0` the claims never apply). -/
def serverPagesAux {α : Type} : Nat → Nat → List α → List (Resp α)
  | 0, _, items => [Resp.ok items]
  | fuel + 1, P, items =>
      if items.length < P then [Resp.ok items]
      else Resp.ok (items.take P) :: serverPagesAux fuel P (items.drop P)

/-- The responses a well-behaved search collaborator holding exactly the
result list `items` returns for pages `1, 2, ...` of size `P`: full
pages of `P` items while more than `P` remain, then one final short
page (possibly empty). No rate limiting, every response 200. -/
def serverResponses {α : Type} (P : Nat) (items : List α) : List (Resp α) :=
  serverPagesAux items.length P items

/-! ### Status resolver (`get_pr_status`)

A search-result item is a JSON object; we model exactly the fields the
embedded functions read, each as an `Option` so that a missing key maps
to `none` (Python `pr.get(key)` / `key in pr`). -/

/-- The `"pull_request"` sub-object of a search item. -/
structure PRLink where
  url : Option String
deriving DecidableEq

/-- The `"user"` sub-object of a search item. -/
structure UserInfo where
  login : Option String
deriving DecidableEq

/-- A pull-request search item, restricted to the keys the code reads. -/
structure PR where
  state : Option String
  pull_request : Option PRLink
  number : Option Nat
  title : Option String
  body : Option String
  user : Option UserInfo
  created_at : Option String
  html_url : Option String
  repository_url : Option String
deriving DecidableEq

/-- Python truthiness of an optional string: `None` and `""` are falsy. -/
def truthyStr : Option String → Bool
  | none => false
  | some s => s ≠ ""

/-- Response of the detail collaborator (`requests.get(pr_url)`):
status code, and the optional `"merged_at"` field of its JSON body. -/
structure DetailResp where
  statusCode : Nat
  merged_at : Option String
deriving DecidableEq

/-- Function `get_pr_status` (`dashboard_docs.py:99`; `github_api.py:16` and
`main.py:107` return the same values on every input).  The detail
collaborator's would-be response is passed explicitly.  Returns the
resolved status together with whether a detail request was issued. -/
def get_pr_status (pr : PR) (detail : DetailResp) : String × Bool :=
  let status := pr.state.getD "unknown"
  -- `if status == "closed" and "pull_request" in pr:`
  match pr.pull_request with
  | some link =>
      if status = "closed" then
        -- `pr_url = pr["pull_request"].get("url"); if pr_url:`
        if truthyStr link.url then
          if detail.statusCode = 200 then
            if truthyStr detail.merged_at then ("merged", true)
            else ("closed", true)
          else ("closed", true)  -- non-200 detail call
        else (status, false)
      else (status, false)
  | none => (status, false)

/-! ### Per-PR summary generation (`generate_pr_detailed_summary`)

`dashboard_docs.py:125` / `main.py:137` / `MAAS.py:25`.  The Granite
collaborator's response is passed explicitly. -/

/-- One element of the `"choices"` list in a Granite response. -/
structure Choice where
  text : Option String
deriving DecidableEq

/-- Response of the Granite completion endpoint: status code and the
optional `"choices"` list of its JSON body (`none` = key absent). -/
structure GraniteResp where
  statusCode : Nat
  choices : Option (List Choice)
deriving DecidableEq

/-- The prompt `generate_pr_detailed_summary` builds from the record. -/
def graniteSummaryPrompt (pr : PR) : String :=
  "You are a knowledgeable code and workflow analyst. " ++
  "Summarize the following pull request in detail, highlighting its purpose, changes, and notable insights. " ++
  "Include any actionable observations.\n\n" ++
  "Title: " ++ pr.title.getD "No title" ++ "\n\n" ++
  "Body: " ++ pr.body.getD "No description provided." ++ "\n\n" ++
  "Detailed Summary:"

/-- Function `generate_pr_detailed_summary`.  `graniteToken` is
`os.getenv("GRANITE_TOKEN")`; the prompt is built but does not influence
the observable result (the response is the collaborator's).  `none`
models an uncaught `IndexError` from `choices[0]` on an explicitly
empty `"choices"` list; every other path returns a string. -/
def generate_pr_detailed_summary (graniteToken : Option String) (pr : PR)
    (resp : GraniteResp) : Option String :=
  let _prompt := graniteSummaryPrompt pr
  -- `if not granite_token: ... return ""`
  if ¬ truthyStr graniteToken then some ""
  else if resp.statusCode = 200 then
    -- `response.json().get("choices", [{}])[0].get("text", "").strip()`
    match resp.choices.getD [⟨none⟩] with
    | [] => none  -- `[0]` raises IndexError
    | c :: _ => some (c.text.getD "").trim
  else
    -- `logger.error(...); return ""`
    some ""

/-! ### Plain-text table renderer (`build_plain_table_string`)

`dashboard_docs.py:254`.  Cells reach this function already stringified
(`str(cell)` is the identity on our `String` cells). -/

/-- Python `str.ljust`: pad on the right with spaces to `width`;
never truncates (`Nat` subtraction gives 0 padding when already wide). -/
def ljust (s : String) (width : Nat) : String :=
  s ++ String.mk (List.replicate (width - s.length) ' ')

/-- Python `max` over a list of lengths.  The source only applies it to
non-empty lists of `Nat`s, where folding from 0 agrees with `max`. -/
def listMax (l : List Nat) : Nat := l.foldl max 0

/-- Helper for `zipCols`: `rows` are the remaining rows besides the
first; recursion is structural on the first row.  Stops as soon as some
row is exhausted, like Python `zip`. -/
def zipColsAux : List String → List (List String) → List (List String)
  | [], _ => []
  | x :: xs, rs =>
      if rs.all (fun r => !r.isEmpty) then
        (x :: rs.map (fun r => r.headD "")) :: zipColsAux xs (rs.map List.tail)
      else []

/-- Python `zip(*table_data)`: the list of columns, truncated at the
length of the shortest row (`zip()` of no rows yields nothing). -/
def zipCols : List (List String) → List (List String)
  | [] => []
  | r :: rs => zipColsAux r rs

/-- The `col_widths` list: maximum cell length per column. -/
def colWidths (table_data : List (List String)) : List Nat :=
  (zipCols table_data).map (fun col => listMax (col.map String.length))

/-- One rendered row: cells left-justified to their column width and
joined with `" | "` (`zip` truncates to the shorter list). -/
def renderRow (row : List String) (widths : List Nat) : String :=
  String.intercalate " | " ((row.zip widths).map (fun cw => ljust cw.1 cw.2))

/-- The separator line: runs of `-` joined with `"-+-"`. -/
def sepRow (widths : List Nat) : String :=
  String.intercalate "-+-" (widths.map (fun w => String.mk (List.replicate w '-')))

/-- Function `build_plain_table_string`.  On an empty `table_data` the source
evaluates `table_data[0]` and raises `IndexError`; that unguarded
branch is modelled as `none`. -/
def build_plain_table_string (table_data : List (List String)) : Option String :=
  let widths := colWidths table_data
  match table_data with
  | [] => none
  | hd :: tl =>
      some (String.intercalate "\n"
        (renderRow hd widths :: sepRow widths :: tl.map (fun row => renderRow row widths)))

/-! ### Document assembler (`insert_plain_text_request`,
`upload_to_google_docs`), `dashboard_docs.py:279-373`.

Only the construction of the batch-update request list and the running
`current_index` are modelled; creating/sharing the document is the
publishing collaborator's side. -/

/-- A Google-Docs batch-update request as built by the source: either
`insertText` at an index or `updateTextStyle` over a range. -/
inductive DocRequest where
  | insertText (index : Nat) (text : String)
  | updateTextStyle (startIndex endIndex : Nat)
deriving DecidableEq

/-- Function `insert_plain_text_request`: request inserting `text + "\n"` at
`start_index`, paired with the reported length `len(text) + 1`. -/
def insert_plain_text_request (text : String) (start_index : Nat) :
    DocRequest × Nat :=
  (DocRequest.insertText start_index (text ++ "\n"), text.length + 1)

/-- The request list and final `current_index` built by
`upload_to_google_docs`.  `none` models the `IndexError` that
`build_plain_table_string` raises when either table is empty. -/
def upload_requests (final_header : String)
    (user_table_data dashboard_table_data : List (List String))
    (detailed_text overall_summary : String) :
    Option (List DocRequest × Nat) :=
  match build_plain_table_string user_table_data,
        build_plain_table_string dashboard_table_data with
  | some user_table_str, some dashboard_table_str =>
      let cur0 := 1
      let p1 := insert_plain_text_request "Overall Summary\n" cur0
      let cur1 := cur0 + p1.2
      let p2 := insert_plain_text_request overall_summary cur1
      let cur2 := cur1 + p2.2
      let p3 := insert_plain_text_request final_header cur2
      let cur3 := cur2 + p3.2
      let p4 := insert_plain_text_request user_table_str cur3
      let s4 := DocRequest.updateTextStyle cur3 (cur3 + p4.2)
      let cur4 := cur3 + p4.2
      let p5 := insert_plain_text_request "\n" cur4
      let cur5 := cur4 + p5.2
      let p6 := insert_plain_text_request dashboard_table_str cur5
      let s6 := DocRequest.updateTextStyle cur5 (cur5 + p6.2)
      let cur6 := cur5 + p6.2
      let p7 := insert_plain_text_request "\n" cur6
      let cur7 := cur6 + p7.2
      let p8 := insert_plain_text_request detailed_text cur7
      let cur8 := cur7 + p8.2
      some ([p1.1, p2.1, p3.1, p4.1, s4, p5.1, p6.1, s6, p7.1, p8.1], cur8)
  | _, _ => none

/-- Total characters inserted by the `insertText` requests of a list. -/
def insertedChars : List DocRequest → Nat
  | [] => 0
  | DocRequest.insertText _ t :: rest => t.length + insertedChars rest
  | DocRequest.updateTextStyle _ _ :: rest => insertedChars rest

/-- Replay a request list against a simulated document cursor: each
`insertText` must land exactly at the cursor, which then advances by
the inserted text's character length; style requests insert nothing.
`none` signals an out-of-place insertion. -/
def replayInserts : Nat → List DocRequest → Option Nat
  | cur, [] => some cur
  | cur, DocRequest.insertText i t :: rest =>
      if i = cur then replayInserts (cur + t.length) rest else none
  | cur, DocRequest.updateTextStyle _ _ :: rest => replayInserts cur rest

/-! ### Markdown report generators (`generate_dashboard` in `main.py`,
`generate_markdown` in `generate_summary.py`) -/

/-- Python `pr.get("user", {}).get("login", "unknown")`. -/
def prUserLogin (pr : PR) : String :=
  match pr.user with
  | some u => u.login.getD "unknown"
  | none => "unknown"

/-- Python `"/".join(repo_url.split("/")[-2:]) if repo_url else "unknown"`. -/
def repoFromUrl (repo_url : String) : String :=
  if repo_url = "" then "unknown"
  else
    let parts := repo_url.splitOn "/"
    String.intercalate "/" (parts.drop (parts.length - 2))

/-- Python `str(number)` for the optional `"number"` field whose Python
default is the empty string. -/
def numberStr (pr : PR) : String :=
  match pr.number with
  | some n => toString n
  | none => ""

/-- One data row of the `main.py` dashboard table, given the status the
resolver returned for the record. -/
def dashboardRow (pr : PR) (status : String) : String :=
  let repo := repoFromUrl (pr.repository_url.getD "")
  let title := (pr.title.getD "").replace "|" "\\|"
  let link :=
    if truthyStr pr.html_url then
      "[" ++ numberStr pr ++ "](" ++ pr.html_url.getD "" ++ ")"
    else numberStr pr
  "| " ++ repo ++ " | " ++ link ++ " | " ++ title ++ " | " ++ prUserLogin pr ++
    " | " ++ pr.created_at.getD "" ++ " | " ++ status ++ " |\n"

/-- Function `generate_dashboard` (`main.py:178`).  `statusOf` stands for the
per-record `get_pr_status` call (a collaborator interaction); the
second component counts how many such calls the run issues (one per
record in the non-empty branch, none in the empty branch). -/
def generate_dashboard (statusOf : PR → String) (prs : List PR)
    (start_date end_date : String) : String × Nat :=
  let md := "# Weekly PR Dashboard\n\n" ++
    ("**Date Range:** " ++ start_date ++ " to " ++ end_date ++ "\n\n")
  if prs.isEmpty then
    (md ++ "No pull requests were created in this period.\n", 0)
  else
    let md := md ++
      "| Repo | PR Number | Title | Author | Created At | Status |\n|------|-----------|-------|--------|------------|--------|\n"
    (prs.foldl (fun acc pr => acc ++ dashboardRow pr (statusOf pr)) md, prs.length)

/-- Python `defaultdict(int)` counting, preserving first-insertion order as a
Python dict does. -/
def bumpCount : List (String × Nat) → String → List (String × Nat)
  | [], user => [(user, 1)]
  | (u, c) :: rest, user =>
      if u = user then (u, c + 1) :: rest else (u, c) :: bumpCount rest user

/-- The `user_counts` table of `generate_markdown`. -/
def userCounts (prs : List PR) : List (String × Nat) :=
  prs.foldl (fun acc pr => bumpCount acc (prUserLogin pr)) []

/-- One data row of the `generate_summary.py` details table. -/
def detailsRow (pr : PR) : String :=
  let repo := repoFromUrl (pr.repository_url.getD "")
  let title := (pr.title.getD "").replace "|" "\\|"
  "| " ++ repo ++ " | " ++ numberStr pr ++ " | " ++ title ++ " | " ++
    prUserLogin pr ++ " | " ++ pr.created_at.getD "" ++ " | [Link](" ++
    pr.html_url.getD "" ++ ") |\n"

/-- Function `generate_markdown` (`generate_summary.py:6`).  Issues no
collaborator call at all (the URL column replaces the status column). -/
def generate_markdown (prs : List PR) (start_date end_date : String) : String :=
  let md := "# Weekly PR Summary\n\n" ++
    ("**Date Range:** " ++ start_date ++ " to " ++ end_date ++ "\n\n")
  if prs.isEmpty then
    md ++ "No pull requests were created in this period.\n"
  else
    let md := md ++ "## Summary by User\n\n" ++ "| User | PR Count |\n" ++
      "|------|----------|\n"
    let md := (userCounts prs).foldl
      (fun acc uc => acc ++ ("| " ++ uc.1 ++ " | " ++ toString uc.2 ++ " |\n")) md
    let md := md ++ "\n## Pull Request Details\n\n" ++
      "| Repo | PR Number | Title | Author | Created At | URL |\n" ++
      "|------|-----------|-------|--------|------------|-----|\n"
    prs.foldl (fun acc pr => acc ++ detailsRow pr) md

/-! ### Theorems -/

/-- The seed of `listMax`'s fold never exceeds the fold's value. -/
theorem foldl_max_init (l : List Nat) : ∀ b : Nat, b ≤ l.foldl max b := by
  induction l with
  | nil => intro b; exact Nat.le_refl b
  | cons x xs ih =>
    intro b
    exact Nat.le_trans (Nat.le_max_left b x) (ih (max b x))

/-- Every member of a list is bounded by `listMax` of the list. -/
theorem le_listMax {l : List Nat} {a : Nat} (h : a ∈ l) : a ≤ listMax l := by
  unfold listMax
  generalize 0 = b
  induction l generalizing b with
  | nil => cases h
  | cons x xs ih =>
    rw [List.foldl_cons]
    rcases List.mem_cons.mp h with rfl | hmem
    · exact Nat.le_trans (Nat.le_max_right b a) (foldl_max_init xs (max b a))
    · exact ih hmem (max b x)

/-- Padding `ljust` pads a short string exactly up to the requested width. -/
theorem ljust_length (s : String) (w : Nat) (h : s.length ≤ w) :
    (ljust s w).length = w := by
  unfold ljust
  rw [String.length_append]
  have hmk : (String.mk (List.replicate (w - s.length) ' ')).length =
      w - s.length := by
    show (List.replicate (w - s.length) ' ').length = w - s.length
    exact List.length_replicate _ _
  omega

/-- A non-empty list's `headD` agrees with `getD` at index 0. -/
theorem headD_eq_getD_zero (l : List String) (h : l ≠ []) :
    l.headD "" = l.getD 0 "" := by
  cases l with
  | nil => exact absurd rfl h
  | cons a t => rfl

/-- On a table whose rows all share the first row's length, Python
`zip(*table)` is the transpose: one column per index `j`, each column
listing every row's `j`-th cell. -/
theorem zipColsAux_uniform : ∀ (r : List String) (rs : List (List String)),
    (∀ l ∈ rs, l.length = r.length) →
    zipColsAux r rs =
      (List.range r.length).map (fun j => (r :: rs).map (fun row => row.getD j "")) := by
  intro r
  induction r with
  | nil => intro rs _; simp [zipColsAux]
  | cons x xs ih =>
    intro rs h
    have hne : ∀ l ∈ rs, l ≠ [] := by
      intro l hl hnil
      have := h l hl
      rw [hnil] at this
      simp at this
    have hall : rs.all (fun l => !l.isEmpty) = true := by
      rw [List.all_eq_true]
      intro l hl
      have := hne l hl
      cases l with
      | nil => exact absurd rfl this
      | cons a t => rfl
    have htail : ∀ l ∈ rs.map List.tail, l.length = xs.length := by
      intro l hl
      rcases List.mem_map.mp hl with ⟨l', hl', rfl⟩
      have := h l' hl'
      rw [List.length_tail, this]
      simp
    simp only [zipColsAux, hall, if_true]
    rw [ih (rs.map List.tail) htail]
    rw [List.length_cons, List.range_succ_eq_map]
    simp only [List.map_cons, List.map_map, List.getD_cons_zero]
    congr 1
    · congr 1
      apply List.map_congr_left
      intro l hl
      exact headD_eq_getD_zero l (hne l hl)
    · apply List.map_congr_left
      intro j _
      simp only [Function.comp_apply, List.map_cons, List.getD_cons_succ, List.map_map]
      congr 1
      apply List.map_congr_left
      intro l hl
      cases l with
      | nil => exact absurd rfl (hne [] hl)
      | cons a t => rfl

/-- Padding the cells of a row of length `n` against widths indexed by
`List.range n` is the pointwise padding of the row's cells. -/
theorem zip_range_map : ∀ (row : List String) (n : Nat) (f : Nat → Nat),
    row.length = n →
    (row.zip ((List.range n).map f)).map (fun cw => ljust cw.1 cw.2) =
      (List.range n).map (fun j => ljust (row.getD j "") (f j)) := by
  intro row
  induction row with
  | nil =>
    intro n f h
    subst h
    simp
  | cons x xs ih =>
    intro n f h
    subst h
    rw [List.length_cons, List.range_succ_eq_map]
    simp only [List.map_cons, List.zip_cons_cons, List.map_map, List.getD_cons_zero]
    congr 1
    rw [ih xs.length (f ∘ Nat.succ) rfl]
    apply List.map_congr_left
    intro j _
    simp

/-- Consuming a block of full (length ≥ `P`) 200-pages advances the
loop page by page, accumulating every item and one trace entry per
page, without sleeping. -/
theorem fetchLoop_ok_full {α : Type} (P : Nat) (front : List (List α)) :
    ∀ (page : Nat) (acc : List α) (trace sleeps : List Nat) (rest : List (Resp α)),
      (∀ l ∈ front, P ≤ l.length) →
      fetchLoop P page acc trace sleeps (front.map Resp.ok ++ rest) =
        fetchLoop P (page + front.length) (acc ++ front.flatten)
          (trace ++ List.range' page front.length) sleeps rest := by
  induction front with
  | nil => intro page acc trace sleeps rest _; simp
  | cons l front ih =>
    intro page acc trace sleeps rest h
    have hl : P ≤ l.length := h l (List.mem_cons_self l front)
    have hrest : ∀ l' ∈ front, P ≤ l'.length := fun l' hl' => h l' (List.mem_cons_of_mem l hl')
    simp only [List.map_cons, List.cons_append, fetchLoop, if_neg (Nat.not_lt.mpr hl),
      List.append_eq]
    rw [ih (page + 1) (acc ++ l) (trace ++ [page]) sleeps rest hrest]
    have hpage : page + 1 + front.length = page + (front.length + 1) := by omega
    simp only [List.length_cons, List.flatten_cons, List.range'_succ, List.append_assoc,
      List.singleton_append, hpage]

/-- Running the fetch loop against a well-behaved server holding
`items` consumes `items.length / P + 1` pages and accumulates every
item, for any starting page and accumulators. -/
theorem fetchLoop_server {α : Type} (P : Nat) (hP : 0 < P) :
    ∀ (fuel : Nat) (items : List α), items.length ≤ fuel →
      ∀ (page : Nat) (acc : List α) (trace sleeps : List Nat),
      fetchLoop P page acc trace sleeps (serverPagesAux fuel P items) =
        some ⟨acc ++ items, trace ++ List.range' page (items.length / P + 1), sleeps⟩ := by
  intro fuel
  induction fuel with
  | zero =>
    intro items hle page acc trace sleeps
    have : items = [] := List.eq_nil_of_length_eq_zero (Nat.le_zero.mp hle)
    subst this
    simp [serverPagesAux, fetchLoop, if_pos hP, List.range'_one]
  | succ fuel ih =>
    intro items hle page acc trace sleeps
    by_cases hshort : items.length < P
    · simp [serverPagesAux, if_pos hshort, fetchLoop, Nat.div_eq_of_lt hshort,
        List.range'_one]
    · have hP_le : P ≤ items.length := Nat.not_lt.mp hshort
      have htake : (items.take P).length = P := by
        simp [List.length_take, Nat.min_eq_left hP_le]
      simp only [serverPagesAux, if_neg hshort, fetchLoop, htake, Nat.lt_irrefl, if_false]
      rw [ih (items.drop P) (by simp [List.length_drop]; omega) (page + 1) (acc ++ items.take P)
        (trace ++ [page]) sleeps]
      have hdiv : (items.drop P).length / P + 1 = items.length / P := by
        rw [List.length_drop, (Nat.div_eq_sub_div hP hP_le).symm]
      rw [hdiv]
      have hrange : trace ++ [page] ++ List.range' (page + 1) (items.length / P) =
          trace ++ List.range' page (items.length / P + 1) := by
        rw [List.range'_succ, List.append_assoc, List.singleton_append]
      rw [List.append_assoc, List.take_append_drop, hrange]

/-- Claim C2 counterexample: with page size `P = 1` and total `T = 1`
(an exact multiple of the page size) the well-behaved server answers
page 1 with the single item and page 2 with an empty page; the fetcher
issues 2 page requests, not `ceil(T/P) = (1 + 1 - 1) / 1 = 1` as the
claim states (the record count is still `T`). -/
theorem c2_counterexample :
    fetchPages 1 (serverResponses 1 [0]) =
      some ⟨[0], [1, 2], []⟩ ∧
    ([1, 2] : List Nat).length ≠ (1 + 1 - 1) / 1 := by decide

/-- Claim C2 (amended): for every positive page size `P` and every result
list held by a well-behaved server (every response 200, none
rate-limited), the fetcher returns exactly the `T` stored records, and
issues exactly `T / P + 1` page requests (pages `1, 2, ...` in order);
that count equals `ceil(T/P)` exactly when `T` is not a multiple of
`P` — when `P` divides `T` the last-page heuristic costs one extra
request (one more than `ceil(T/P)`, e.g. 1 instead of 0 for `T = 0`). -/
theorem c2_amended (P : Nat) (hP : 0 < P) (items : List Nat) :
    fetchPages P (serverResponses P items) =
      some ⟨items, List.range' 1 (items.length / P + 1), []⟩ ∧
    (items.length % P ≠ 0 →
      items.length / P + 1 = (items.length + P - 1) / P) := by
  constructor
  · unfold fetchPages serverResponses
    rw [fetchLoop_server P hP items.length items (Nat.le_refl _) 1 [] [] []]
    simp
  · intro hmod
    have hmodlt : items.length % P < P := Nat.mod_lt _ hP
    have hqr := Nat.div_add_mod items.length P
    have hmul : P * (items.length / P + 1) = P * (items.length / P) + P := by ring
    have hdecomp : items.length + P - 1 = P * (items.length / P + 1) + (items.length % P - 1) := by
      omega
    have hlt : items.length % P - 1 < P := by omega
    rw [hdecomp, Nat.mul_add_div hP, Nat.div_eq_of_lt hlt, Nat.add_zero]

/-- Witness for the amended C2 at `P = 2`, `T = 3`. -/
theorem c2_amended_witness :
    fetchPages 2 (serverResponses 2 [5, 6, 7]) =
      some ⟨[5, 6, 7], List.range' 1 ([5, 6, 7].length / 2 + 1), []⟩ ∧
    (([5, 6, 7] : List Nat).length % 2 ≠ 0 →
      [5, 6, 7].length / 2 + 1 = (([5, 6, 7] : List Nat).length + 2 - 1) / 2) :=
  c2_amended 2 (by decide) [5, 6, 7]

/-- Claim C5: a 403 response makes the fetcher pause for the fixed
60-unit cooldown and re-request the same page number without advancing
(first conjunct, a law of the loop step); for a response sequence whose
first two responses are 403 followed by a successful final page, the
fetcher performs exactly two cooldown pauses (sleep log `[60, 60]`),
requests page 1 three times, and the retried page's items appear in
the result exactly once — neither skipped nor duplicated. -/
theorem c5_rate_limit_retry :
    (∀ (P page : Nat) (acc : List Nat) (trace sleeps : List Nat) (rest : List (Resp Nat)),
        fetchLoop P page acc trace sleeps (Resp.rateLimited :: rest) =
          fetchLoop P page acc (trace ++ [page]) (sleeps ++ [60]) rest) ∧
    (∀ (items : List Nat), items.length < 100 →
        fetch_all_prs_by_user
            [Resp.rateLimited, Resp.rateLimited, Resp.ok items] =
          some ⟨items, [1, 1, 1], [60, 60]⟩) := by
  refine ⟨fun P page acc trace sleeps rest => rfl, fun items h => ?_⟩
  simp [fetch_all_prs_by_user, fetchPages, fetchLoop, if_pos h]

/-- Witness for C5 with a concrete one-item final page. -/
theorem c5_rate_limit_retry_witness :
    fetch_all_prs_by_user [Resp.rateLimited, Resp.rateLimited, Resp.ok [7]] =
      some ⟨[7], [1, 1, 1], [60, 60]⟩ :=
  c5_rate_limit_retry.2 [7] (by decide)

/-- Claim C6: a response that is neither 200 nor 403 stops the fetcher at
once — it returns exactly the accumulated records, whatever responses
would follow (first conjunct); composed with any run of prior full
pages, the result is precisely the concatenation of the already-fetched
pages (partial results, nothing discarded, no further page requested). -/
theorem c6_non200_partial_results :
    (∀ (P page : Nat) (acc : List Nat) (trace sleeps : List Nat) (rest : List (Resp Nat)),
        fetchLoop P page acc trace sleeps (Resp.err :: rest) =
          some ⟨acc, trace ++ [page], sleeps⟩) ∧
    (∀ (front : List (List Nat)) (rest : List (Resp Nat)),
        (∀ l ∈ front, l.length = 100) →
        fetch_all_prs_by_user (front.map Resp.ok ++ Resp.err :: rest) =
          some ⟨front.flatten, List.range' 1 (front.length + 1), []⟩) := by
  refine ⟨fun P page acc trace sleeps rest => rfl, fun front rest h => ?_⟩
  unfold fetch_all_prs_by_user fetchPages
  rw [fetchLoop_ok_full 100 front 1 [] [] [] (Resp.err :: rest)
      (fun l hl => Nat.le_of_eq (h l hl).symm)]
  simp only [fetchLoop, List.nil_append]
  rw [List.range'_concat]
  simp [Nat.add_comm]

/-- Witness for C6: two full pages then a 500-style failure. -/
theorem c6_non200_partial_results_witness :
    fetch_all_prs_by_user
        ((([List.range 100, List.range 100] : List (List Nat)).map Resp.ok) ++
          Resp.err :: []) =
      some ⟨([List.range 100, List.range 100] : List (List Nat)).flatten,
        List.range' 1 ([List.range 100, List.range 100].length + 1), []⟩ :=
  c6_non200_partial_results.2 [List.range 100, List.range 100] [] (by decide)

/-- Claim C3: status resolution is a deterministic function of the record
and the fixed detail-collaborator response (it is a pure function of
both in the embedding): coarse state `open` yields `open` with no
detail request issued; for a record whose `pull_request.url` is present
(the case in which a detail response exists), coarse state `closed`
with a 200 detail response carrying a non-empty `merged_at` yields
`merged`; a 200 response with empty or absent `merged_at` yields
`closed`; and a non-200 detail call yields `closed`. -/
theorem c3_status_resolution (pr : PR) (detail : DetailResp) :
    (pr.state = some "open" → get_pr_status pr detail = ("open", false)) ∧
    (pr.state = some "closed" →
      ∀ link, pr.pull_request = some link → truthyStr link.url = true →
      ((detail.statusCode = 200 → truthyStr detail.merged_at = true →
          get_pr_status pr detail = ("merged", true)) ∧
       (detail.statusCode = 200 → truthyStr detail.merged_at = false →
          get_pr_status pr detail = ("closed", true)) ∧
       (detail.statusCode ≠ 200 → get_pr_status pr detail = ("closed", true)))) := by
  constructor
  · intro hopen
    unfold get_pr_status
    rw [hopen]
    cases pr.pull_request <;> simp
  · intro hclosed link hlink hurl
    unfold get_pr_status
    rw [hclosed, hlink]
    exact ⟨fun h200 hm => by simp [hurl, h200, hm],
           fun h200 hm => by simp [hurl, h200, hm],
           fun h200 => by simp [hurl, h200]⟩

/-- Witness for C3 at a concrete closed-and-merged record. -/
theorem c3_status_resolution_witness :
    get_pr_status ⟨some "closed", some ⟨some "u"⟩, none, none, none, none, none, none, none⟩
        ⟨200, some "2024-01-01"⟩ = ("merged", true) :=
  ((c3_status_resolution _ _).2 rfl ⟨some "u"⟩ rfl (by decide)).1 rfl (by decide)

/-- Claim C4 counterexample: a record with no `"state"` key resolves to
`"unknown"`, which is outside the contracted codomain
`{open, closed, merged}` — the claim fails as stated. -/
theorem c4_counterexample :
    (get_pr_status ⟨none, none, none, none, none, none, none, none, none⟩ ⟨200, none⟩).1
        = "unknown" ∧
    "unknown" ∉ (["open", "closed", "merged"] : List String) := by decide

/-- Claim C4 (amended): whenever the record's coarse state is one of the
recognised values `open` or `closed`, the resolver's result is a member
of `{open, closed, merged}`; a missing or unrecognised coarse state is
instead returned verbatim (e.g. `"unknown"`). -/
theorem c4_amended (pr : PR) (detail : DetailResp)
    (h : pr.state = some "open" ∨ pr.state = some "closed") :
    (get_pr_status pr detail).1 ∈ (["open", "closed", "merged"] : List String) := by
  unfold get_pr_status
  rcases h with h | h <;> rw [h] <;> cases pr.pull_request <;>
    simp only [Option.getD_some] <;> (try split_ifs) <;> simp

/-- Witness for the amended C4 at a concrete open record. -/
theorem c4_amended_witness :
    (get_pr_status ⟨some "open", none, none, none, none, none, none, none, none⟩
        ⟨200, none⟩).1 ∈ (["open", "closed", "merged"] : List String) :=
  c4_amended _ _ (Or.inl rfl)

/-- Claim C8: when the Granite call returns a non-200 response, the
per-record summary generator returns the empty string (modelled
`some ""`: a value, not an exception, so the surrounding run is never
aborted), for every record and every truthy token. -/
theorem c8_granite_error_empty (tok : Option String) (pr : PR) (resp : GraniteResp)
    (htok : truthyStr tok = true) (hcode : resp.statusCode ≠ 200) :
    generate_pr_detailed_summary tok pr resp = some "" := by
  unfold generate_pr_detailed_summary
  simp [htok, hcode]

/-- Witness for C8 at a concrete record and a 500 response. -/
theorem c8_granite_error_empty_witness :
    generate_pr_detailed_summary (some "tok")
        ⟨some "open", none, none, some "t", some "b", none, none, none, none⟩
        ⟨500, none⟩ = some "" :=
  c8_granite_error_empty _ _ _ (by decide) (by decide)

/-- Claim C9: on the empty record list the report generators emit exactly
the title heading, the date-range line, and the fixed sentence — no
table header, no table rows — and issue zero per-record collaborator
calls (the `0` component for `generate_dashboard`; `generate_markdown`
performs no collaborator call by construction). -/
theorem c9_empty_report (statusOf : PR → String) (s e : String) :
    generate_dashboard statusOf [] s e =
      ("# Weekly PR Dashboard\n\n" ++ ("**Date Range:** " ++ s ++ " to " ++ e ++ "\n\n") ++
        "No pull requests were created in this period.\n", 0) ∧
    generate_markdown [] s e =
      "# Weekly PR Summary\n\n" ++ ("**Date Range:** " ++ s ++ " to " ++ e ++ "\n\n") ++
        "No pull requests were created in this period.\n" :=
  ⟨rfl, rfl⟩

/-- Claim C1: after emitting the edit operations for the full block
sequence, the document assembler's running cursor equals 1 plus the sum
of the character lengths of all inserted texts (each including its
trailing line terminator); replaying the request list against a
simulated cursor starting at the 1-based origin confirms that every
`insertText` lands exactly at the running cursor, which advances by
exactly the inserted character count (style requests insert nothing).
Holds for every input — header, tables, summaries. -/
theorem c1_cursor_invariant (final_header : String)
    (user_table_data dashboard_table_data : List (List String))
    (detailed_text overall_summary : String) (reqs : List DocRequest) (cur : Nat)
    (h : upload_requests final_header user_table_data dashboard_table_data
        detailed_text overall_summary = some (reqs, cur)) :
    replayInserts 1 reqs = some cur ∧ cur = 1 + insertedChars reqs := by
  have hn : ("\n" : String).length = 1 := rfl
  have hn2 : ("\n\n" : String).length = 2 := rfl
  have hos : ("Overall Summary\n" : String).length = 16 := rfl
  have hos2 : ("Overall Summary\n\n" : String).length = 17 := rfl
  unfold upload_requests at h
  cases hu : build_plain_table_string user_table_data with
  | none => rw [hu] at h; exact absurd h (by simp)
  | some us =>
  cases hd : build_plain_table_string dashboard_table_data with
  | none => rw [hu, hd] at h; exact absurd h (by simp)
  | some ds =>
  rw [hu, hd] at h
  simp only [insert_plain_text_request, Option.some.injEq, Prod.mk.injEq] at h
  obtain ⟨hreqs, hcur⟩ := h
  subst hreqs hcur
  constructor
  · simp [replayInserts, String.length_append, hn, hn2, hos, hos2]
  · simp [insertedChars, String.length_append, hn, hn2, hos, hos2]
    omega

/-- Witness for C1 at concrete header, tables and summaries. -/
theorem c1_cursor_invariant_witness :
    ∃ (reqs : List DocRequest) (cur : Nat),
      upload_requests "H" [["u"]] [["d"]] "D" "O" = some (reqs, cur) ∧
      replayInserts 1 reqs = some cur ∧ cur = 1 + insertedChars reqs := by
  refine ⟨_, _, rfl, c1_cursor_invariant "H" [["u"]] [["d"]] "D" "O" _ _ rfl⟩

/-- Claim C10: the plain-text table renderer is total on every non-empty
table — it produces a header line, a separator line, and one line per
data row — while on the empty table (zero rows) the source evaluates
`table_data[0]` and raises an unguarded `IndexError`, modelled by the
`none` branch of the embedding. -/
theorem c10_table_renderer_totality :
    build_plain_table_string [] = none ∧
    ∀ (hd : List String) (tl : List (List String)),
      ∃ (header sep : String) (rows : List String),
        build_plain_table_string (hd :: tl) =
          some (String.intercalate "\n" (header :: sep :: rows)) ∧
        rows.length = tl.length := by
  refine ⟨rfl, fun hd tl => ?_⟩
  exact ⟨renderRow hd (colWidths (hd :: tl)), sepRow (colWidths (hd :: tl)),
    tl.map (fun row => renderRow row (colWidths (hd :: tl))), rfl, by simp⟩

/-- Claim C7: for every non-empty table whose rows all carry the same
number of cells, the renderer's column widths are exactly the maximum
cell-string length per column across all rows including the header;
every row (header included) renders to the same number of padded
cells, each cell left-justified (`ljust`) to exactly its column's
width; and the rendered output is those cells joined with the fixed
`" | "` delimiter (`renderRow`), one line per row plus a separator. -/
theorem c7_table_rendering (hd : List String) (tl : List (List String))
    (hu : ∀ r ∈ tl, r.length = hd.length) :
    colWidths (hd :: tl) =
      (List.range hd.length).map
        (fun j => listMax ((hd :: tl).map (fun row => (row.getD j "").length))) ∧
    (∀ row ∈ hd :: tl,
      (row.zip (colWidths (hd :: tl))).map (fun cw => ljust cw.1 cw.2) =
        (List.range hd.length).map (fun j =>
          ljust (row.getD j "")
            (listMax ((hd :: tl).map (fun r => (r.getD j "").length)))) ∧
      ∀ j ∈ List.range hd.length,
        (ljust (row.getD j "")
            (listMax ((hd :: tl).map (fun r => (r.getD j "").length)))).length =
          listMax ((hd :: tl).map (fun r => (r.getD j "").length))) ∧
    build_plain_table_string (hd :: tl) =
      some (String.intercalate "\n"
        (renderRow hd (colWidths (hd :: tl)) :: sepRow (colWidths (hd :: tl)) ::
          tl.map (fun row => renderRow row (colWidths (hd :: tl))))) := by
  have hws : colWidths (hd :: tl) =
      (List.range hd.length).map
        (fun j => listMax ((hd :: tl).map (fun row => (row.getD j "").length))) := by
    simp only [colWidths, zipCols]
    rw [zipColsAux_uniform hd tl hu]
    rw [List.map_map]
    apply List.map_congr_left
    intro j _
    simp only [Function.comp_apply, List.map_map]
    rfl
  refine ⟨hws, fun row hrow => ⟨?_, fun j _ => ?_⟩, rfl⟩
  · have hlen : row.length = hd.length := by
      rcases List.mem_cons.mp hrow with rfl | hmem
      · rfl
      · exact hu row hmem
    rw [hws]
    exact zip_range_map row hd.length _ hlen
  · apply ljust_length
    apply le_listMax
    exact List.mem_map_of_mem (fun r => (r.getD j "").length) hrow

/-- Witness for C7 at a concrete 2×2 table. -/
theorem c7_table_rendering_witness :
    colWidths [["a", "bb"], ["ccc", "d"]] =
      (List.range (["a", "bb"] : List String).length).map
        (fun j => listMax (([["a", "bb"], ["ccc", "d"]] : List (List String)).map
          (fun row => (row.getD j "").length))) ∧
    (∀ row ∈ ([["a", "bb"], ["ccc", "d"]] : List (List String)),
      (row.zip (colWidths [["a", "bb"], ["ccc", "d"]])).map (fun cw => ljust cw.1 cw.2) =
        (List.range (["a", "bb"] : List String).length).map (fun j =>
          ljust (row.getD j "")
            (listMax (([["a", "bb"], ["ccc", "d"]] : List (List String)).map
              (fun r => (r.getD j "").length)))) ∧
      ∀ j ∈ List.range (["a", "bb"] : List String).length,
        (ljust (row.getD j "")
            (listMax (([["a", "bb"], ["ccc", "d"]] : List (List String)).map
              (fun r => (r.getD j "").length)))).length =
          listMax (([["a", "bb"], ["ccc", "d"]] : List (List String)).map
            (fun r => (r.getD j "").length))) ∧
    build_plain_table_string [["a", "bb"], ["ccc", "d"]] =
      some (String.intercalate "\n"
        (renderRow ["a", "bb"] (colWidths [["a", "bb"], ["ccc", "d"]]) ::
          sepRow (colWidths [["a", "bb"], ["ccc", "d"]]) ::
          ([["ccc", "d"]] : List (List String)).map
            (fun row => renderRow row (colWidths [["a", "bb"], ["ccc", "d"]])))) :=
  c7_table_rendering ["a", "bb"] [["ccc", "d"]] (by decide)

end WeeklyReport
